import Mathlib

/-!
Shallow embedding of the data-access layer (`Database`) and the
session/navigation controller (`BlogApp`) of the Tkinter blog
application, together with theorems settling the specification claims.

Modelling conventions:
* SQLite rows become Lean structures; the three tables live in a `DB` record
  together with the AUTOINCREMENT counters and the wall clock used for
  `CURRENT_TIMESTAMP`.
* Every `Database` method takes a `fault : Bool` flag modelling a persistence
  failure raised by the underlying `sqlite3` calls.  A method whose Python body
  wraps its work in `try/except` turns the fault into its caught
  `(False, message)` result; a method without a handler propagates the
  exception, modelled as `Except.error`.
* The Python process never executes `PRAGMA foreign_keys = ON`, and SQLite
  leaves foreign-key enforcement OFF by default, so the declared
  `ON DELETE CASCADE` clauses and foreign-key checks are inert.  The embedding
  reproduces that actual behaviour: `delete_postF` removes only the posts row
  and `add_commentF` inserts without referential checks.
* `hash_password` (unsalted SHA-256) is abstracted as a parameter
  `hash : String → String`; the claims about authentication depend only on the
  comparison structure, not on the particular digest.
* The filesystem seen by `create_post` is a list of existing file names, and
  `copyFails : Bool` models `shutil.copy2` raising.
-/

/-- Row of the `users` table (user_id, username, email, password hash,
full_name, created_at). -/
structure UserRow where
  user_id : Nat
  username : String
  email : String
  password : String
  full_name : String
  created_at : Nat
deriving DecidableEq

/-- Row of the `posts` table. -/
structure PostRow where
  post_id : Nat
  user_id : Nat
  title : String
  content : String
  category : String
  image_path : Option String
  created_at : Nat
  updated_at : Nat
deriving DecidableEq

/-- Row of the `comments` table. -/
structure CommentRow where
  comment_id : Nat
  post_id : Nat
  user_id : Nat
  comment_text : String
  created_at : Nat
deriving DecidableEq

/-- The persistent store: the three tables created by `create_tables`,
the AUTOINCREMENT counters, and the current wall-clock time used for
`CURRENT_TIMESTAMP` defaults. -/
structure DB where
  users : List UserRow
  posts : List PostRow
  comments : List CommentRow
  next_user_id : Nat
  next_post_id : Nat
  next_comment_id : Nat
  now : Nat
deriving DecidableEq

/-- A store with empty tables, as produced by `create_tables` on first run. -/
def emptyDB : DB := ⟨[], [], [], 1, 1, 1, 0⟩

/-- Message of a generic persistence failure caught by a `try/except` block
(the Python code formats it as `Error: ...` or returns `str(e)`). -/
def errDb : String := "database failure"

/-- Message returned by `register_user` on `sqlite3.IntegrityError`. -/
def msgDup : String := "Username or email already exists!"

/-- Success message of `register_user`. -/
def msgReg : String := "Registration successful!"

/-- Success message of `update_post`. -/
def msgUpd : String := "Post updated successfully!"

/-- Success message of `delete_post`. -/
def msgDel : String := "Post deleted successfully!"

/-- Success message of `add_comment`. -/
def msgCmt : String := "Comment added!"

/-- Message of a failed `shutil.copy2` caught inside `create_post`. -/
def msgCopy : String := "image copy failed"

/-- The empty string (Python falsiness check `if image_path`). -/
def emptyStr : String := ""

/-- Path separator used by `os.path.basename`. -/
def slash : String := "/"

/-- The managed image directory prefix `post_images/`. -/
def imgDir : String := "post_images/"

/-- `os.path.basename`: the component after the last separator. -/
def basename (p : String) : String := (p.splitOn slash).getLastD emptyStr

/-- Whether an `Except` value is a normal return (no exception escaped). -/
def exceptOk {ε α : Type} : Except ε α → Bool
  | Except.ok _ => true
  | Except.error _ => false

/-- Descending order by a natural-number key (SQL `ORDER BY key DESC`). -/
def descBy {α : Type} (key : α → Nat) : α → α → Prop :=
  fun a b => key b ≤ key a

instance {α : Type} (key : α → Nat) : DecidableRel (descBy key) :=
  fun a b => inferInstanceAs (Decidable (key b ≤ key a))

instance {α : Type} (key : α → Nat) : IsTotal α (descBy key) :=
  ⟨fun a b => Nat.le_total (key b) (key a)⟩

instance {α : Type} (key : α → Nat) : IsTrans α (descBy key) :=
  ⟨fun _ _ _ h1 h2 => Nat.le_trans h2 h1⟩

/-- `Database.register_user`: hash the password and insert; a duplicate
username or email violates a UNIQUE constraint (`sqlite3.IntegrityError`)
and is reported as a failure without touching the table. -/
def register_userF (hash : String → String) (fault : Bool) (db : DB)
    (un em pw fn : String) : Except String (DB × Bool × String) :=
  if fault then Except.ok (db, false, errDb)
  else if db.users.any (fun u => u.username == un || u.email == em) then
    Except.ok (db, false, msgDup)
  else
    Except.ok
      ({ db with
          users := db.users ++ [⟨db.next_user_id, un, em, hash pw, fn, db.now⟩],
          next_user_id := db.next_user_id + 1 },
        true, msgReg)

/-- Result of `Database.login_user`: `(True, row)`, `(False, None)`, or the
caught `(False, str(e))`. -/
inductive LoginOutcome where
  | found (user_id : Nat) (full_name : String)
  | notFound
  | caughtErr (msg : String)
deriving DecidableEq

/-- `Database.login_user`: select the first row whose username and stored
hash match, returning its `(user_id, full_name)`. -/
def login_userF (hash : String → String) (fault : Bool) (db : DB)
    (un pw : String) : Except String LoginOutcome :=
  if fault then Except.ok (LoginOutcome.caughtErr errDb)
  else
    match db.users.find? (fun u => u.username == un && u.password == hash pw) with
    | some u => Except.ok (LoginOutcome.found u.user_id u.full_name)
    | none => Except.ok LoginOutcome.notFound

/-- Result of `Database.create_post`: `(True, post_id)` or `(False, msg)`. -/
inductive CreateOutcome where
  | created (post_id : Nat)
  | failed (msg : String)
deriving DecidableEq

/-- Insert a posts row with the next AUTOINCREMENT id and the current
timestamps. -/
def insertPost (db : DB) (uid : Nat) (t c g : String)
    (stored : Option String) : DB :=
  { db with
      posts := db.posts ++ [⟨db.next_post_id, uid, t, c, g, stored, db.now, db.now⟩],
      next_post_id := db.next_post_id + 1 }

/-- `Database.create_post`: when a non-empty image path names an existing
file, copy it into `post_images/` (the copy may fail, caught inside the
`try`) and record the stored location; otherwise (`None`, empty path, or a
missing file) silently record the post with a NULL image reference. -/
def create_postF (fault copyFails : Bool) (fs : List String) (db : DB)
    (uid : Nat) (t c g : String) (ip : Option String) :
    Except String (DB × CreateOutcome) :=
  match ip with
  | none =>
      if fault then Except.ok (db, CreateOutcome.failed errDb)
      else Except.ok (insertPost db uid t c g none, CreateOutcome.created db.next_post_id)
  | some p =>
      if p ≠ emptyStr ∧ p ∈ fs then
        if copyFails then Except.ok (db, CreateOutcome.failed msgCopy)
        else if fault then Except.ok (db, CreateOutcome.failed errDb)
        else
          Except.ok
            (insertPost db uid t c g (some (imgDir ++ basename p)),
              CreateOutcome.created db.next_post_id)
      else
        if fault then Except.ok (db, CreateOutcome.failed errDb)
        else Except.ok (insertPost db uid t c g none, CreateOutcome.created db.next_post_id)

/-- Row shape returned by `Database.get_all_posts` (posts JOIN users). -/
structure AllPostRow where
  post_id : Nat
  title : String
  content : String
  category : String
  created_at : Nat
  username : String
  full_name : String
  image_path : Option String
deriving DecidableEq

/-- The `posts JOIN users ON posts.user_id = users.user_id` relation: a post
whose user id matches no users row produces no output row. -/
def joinRows (users : List UserRow) (posts : List PostRow) : List AllPostRow :=
  posts.filterMap (fun p =>
    (users.find? (fun u => u.user_id == p.user_id)).map (fun u =>
      ⟨p.post_id, p.title, p.content, p.category, p.created_at,
        u.username, u.full_name, p.image_path⟩))

/-- `Database.get_all_posts`: no `try/except`, so a persistence failure
propagates; otherwise the join ordered by `created_at DESC`. -/
def get_all_postsF (fault : Bool) (db : DB) : Except String (List AllPostRow) :=
  if fault then Except.error errDb
  else
    Except.ok
      (List.insertionSort (descBy (fun x : AllPostRow => x.created_at))
        (joinRows db.users db.posts))

/-- Row shape returned by `Database.get_user_posts`. -/
structure UserPostRow where
  post_id : Nat
  title : String
  content : String
  category : String
  created_at : Nat
  image_path : Option String
deriving DecidableEq

/-- Projection of a posts row onto the columns selected by
`get_user_posts`. -/
def projUserPost (p : PostRow) : UserPostRow :=
  ⟨p.post_id, p.title, p.content, p.category, p.created_at, p.image_path⟩

/-- `Database.get_user_posts`: no `try/except`; posts of one user ordered
by `created_at DESC` (no join needed). -/
def get_user_postsF (fault : Bool) (db : DB) (uid : Nat) :
    Except String (List UserPostRow) :=
  if fault then Except.error errDb
  else
    Except.ok
      (List.insertionSort (descBy (fun x : UserPostRow => x.created_at))
        ((db.posts.filter (fun p => p.user_id == uid)).map projUserPost))

/-- Row shape returned by `Database.get_post_details`. -/
structure PostDetailRow where
  post_id : Nat
  title : String
  content : String
  category : String
  created_at : Nat
  username : String
  full_name : String
  user_id : Nat
  image_path : Option String
deriving DecidableEq

/-- `Database.get_post_details`: no `try/except`; `fetchone` on the join
restricted to one post id, `none` when no row matches. -/
def get_post_detailsF (fault : Bool) (db : DB) (pid : Nat) :
    Except String (Option PostDetailRow) :=
  if fault then Except.error errDb
  else
    Except.ok
      ((db.posts.find? (fun p => p.post_id == pid)).bind (fun p =>
        (db.users.find? (fun u => u.user_id == p.user_id)).map (fun u =>
          ⟨p.post_id, p.title, p.content, p.category, p.created_at,
            u.username, u.full_name, p.user_id, p.image_path⟩)))

/-- The row rewrite performed by the `UPDATE posts SET ... WHERE post_id = ?`
statement of `update_post`. -/
def updateRow (pid : Nat) (t c g : String) (now : Nat) (p : PostRow) : PostRow :=
  if p.post_id = pid then
    { p with title := t, content := c, category := g, updated_at := now }
  else p

/-- `Database.update_post`: rewrites matching rows and reports success even
when no row matches. -/
def update_postF (fault : Bool) (db : DB) (pid : Nat) (t c g : String) :
    Except String (DB × Bool × String) :=
  if fault then Except.ok (db, false, errDb)
  else
    Except.ok
      ({ db with posts := db.posts.map (updateRow pid t c g db.now) },
        true, msgUpd)

/-- `Database.delete_post`: `DELETE FROM posts WHERE post_id = ?`.  Because
the connection never enables `PRAGMA foreign_keys`, the declared
`ON DELETE CASCADE` does not run and the comments table is untouched. -/
def delete_postF (fault : Bool) (db : DB) (pid : Nat) :
    Except String (DB × Bool × String) :=
  if fault then Except.ok (db, false, errDb)
  else
    Except.ok
      ({ db with posts := db.posts.filter (fun p => decide (p.post_id ≠ pid)) },
        true, msgDel)

/-- `Database.add_comment`: inserts unconditionally; with foreign-key
enforcement off, a dangling `post_id` or `user_id` raises nothing. -/
def add_commentF (fault : Bool) (db : DB) (pid uid : Nat) (txt : String) :
    Except String (DB × Bool × String) :=
  if fault then Except.ok (db, false, errDb)
  else
    Except.ok
      ({ db with
          comments := db.comments ++ [⟨db.next_comment_id, pid, uid, txt, db.now⟩],
          next_comment_id := db.next_comment_id + 1 },
        true, msgCmt)

/-- Row shape returned by `Database.get_post_comments` (comments JOIN
users). -/
structure CommentViewRow where
  comment_id : Nat
  comment_text : String
  username : String
  created_at : Nat
deriving DecidableEq

/-- `Database.get_post_comments`: no `try/except`; one post's comments
joined with their authors, ordered by `created_at DESC`. -/
def get_post_commentsF (fault : Bool) (db : DB) (pid : Nat) :
    Except String (List CommentViewRow) :=
  if fault then Except.error errDb
  else
    Except.ok
      (List.insertionSort (descBy (fun x : CommentViewRow => x.created_at))
        ((db.comments.filter (fun c => c.post_id == pid)).filterMap (fun c =>
          (db.users.find? (fun u => u.user_id == c.user_id)).map (fun u =>
            ⟨c.comment_id, c.comment_text, u.username, c.created_at⟩))))

/-- The fixed set of pages (frames) of the application. -/
inductive Page where
  | Login
  | Signup
  | Home
  | About
  | Contact
  | Compose
  | MyPosts
  | PostDetail
  | Gallery
  | CategoryTree
deriving DecidableEq

/-- Navigation-controller state: `BlogApp.current_user` and the frame
currently raised. -/
structure NavState where
  currentUser : Option (Nat × String)
  activePage : Page
deriving DecidableEq

/-- `BlogApp.__init__`: `current_user = None` and `show_frame(LoginPage)`. -/
def initNav : NavState := ⟨none, Page.Login⟩

/-- `BlogApp.show_frame`: raises the requested frame unconditionally. -/
def show_frame (s : NavState) (p : Page) : NavState :=
  { s with activePage := p }

/-- `BlogApp.set_user`: records the logged-in user. -/
def set_user (s : NavState) (uid : Nat) (name : String) : NavState :=
  { s with currentUser := some (uid, name) }

/-- The login transition (`LoginPage.login` on success):
`set_user` followed by `show_frame(HomePage)`. -/
def nav_login (s : NavState) (uid : Nat) (name : String) : NavState :=
  show_frame (set_user s uid name) Page.Home

/-- `BlogApp.logout`: clears the user and shows the login page. -/
def nav_logout (s : NavState) : NavState :=
  show_frame { s with currentUser := none } Page.Login

/-- Concrete users, posts and comments for witnesses and failing inputs. -/
def u1 : UserRow := ⟨1, "alice", "a@x.com", "h1", "Alice A", 0⟩

/-- Second concrete user. -/
def u2 : UserRow := ⟨2, "bob", "b@x.com", "h2", "Bob B", 0⟩

/-- Post 1, owned by user 1. -/
def p1 : PostRow := ⟨1, 1, "Hi", "Body text", "Technology", none, 1, 1⟩

/-- Post 2, owned by user 2. -/
def p2 : PostRow := ⟨2, 2, "Second", "More text", "Travel", none, 2, 2⟩

/-- A comment by user 1 on post 1. -/
def c1 : CommentRow := ⟨1, 1, 1, "Nice!", 3⟩

/-- A store holding both users, both posts and the comment. -/
def dbTwo : DB := ⟨[u1, u2], [p1, p2], [c1], 3, 3, 2, 4⟩

/-- `dbTwo` after `delete_post(1)`: the posts row is gone, the comment is
not. -/
def dbTwoDel : DB := ⟨[u1, u2], [p2], [c1], 3, 3, 2, 4⟩

/-- `emptyDB` after `add_comment(7, 9, "hi")`: a comment row whose post and
user do not exist. -/
def dbOrphan : DB := ⟨[], [], [⟨1, 7, 9, "hi", 0⟩], 1, 1, 2, 0⟩

/-- `emptyDB` after `create_post(1, ..., image_path="pic.png")` with no such
file on disk: the post is recorded with a NULL image reference. -/
def dbNoImage : DB := ⟨[], [⟨1, 1, "T", "B", "Cat", none, 0, 0⟩], [], 1, 2, 1, 0⟩

/-- A store with one user and one post, used by witnesses. -/
def dbW : DB := ⟨[u1], [p1], [], 2, 2, 1, 5⟩

/-- C8: the navigation controller starts at (Login, no user); `login` sets
the current user and moves to Home; `logout` clears the user and returns to
Login; `show_frame` raises any requested page unconditionally, leaving the
current user untouched. -/
theorem nav_controller_transitions :
    initNav = ⟨none, Page.Login⟩ ∧
    (∀ s uid name, nav_login s uid name = ⟨some (uid, name), Page.Home⟩) ∧
    (∀ s, nav_logout s = ⟨none, Page.Login⟩) ∧
    (∀ s p, show_frame s p = ⟨s.currentUser, p⟩) :=
  ⟨rfl, fun _ _ _ => rfl, fun _ => rfl, fun _ _ => rfl⟩

/-- C1: evaluation at the failing input.  Deleting post 1 succeeds, makes
`get_post_details` return no row, and leaves user 2's post intact — but the
comment on post 1 survives, because the connection never enables
`PRAGMA foreign_keys` and the declared cascade therefore does not run. -/
theorem delete_post_cascade_failure :
    delete_postF false dbTwo 1 = Except.ok (dbTwoDel, true, msgDel) ∧
    dbTwoDel.comments = [c1] ∧
    get_post_detailsF false dbTwoDel 1 = Except.ok none ∧
    dbTwoDel.posts = [p2] := by
  refine ⟨rfl, rfl, rfl, rfl⟩

/-- C7: evaluation at the failing input.  On the empty store,
`add_comment(7, 9, "hi")` succeeds and records a comment whose post and
author do not exist: with foreign-key enforcement off, the declared
constraints are never checked and the referential-integrity invariant is
violated in a reachable state. -/
theorem add_comment_dangling_references :
    add_commentF false emptyDB 7 9 ("hi") = Except.ok (dbOrphan, true, msgCmt) ∧
    dbOrphan.comments = [⟨1, 7, 9, "hi", 0⟩] ∧
    dbOrphan.posts = [] ∧
    dbOrphan.users = [] := by
  refine ⟨rfl, rfl, rfl, rfl⟩

/-- C5 counterexample: with `image_path="pic.png"` supplied but no such file
on disk, `create_post` does not fail — it records the post with a NULL image
reference and reports success, contradicting the claim that the operation
fails whenever the image copy cannot complete. -/
theorem create_post_missing_file_succeeds :
    create_postF false false [] emptyDB 1 ("T") ("B") ("Cat") (some ("pic.png")) =
      Except.ok (dbNoImage, CreateOutcome.created 1) ∧
    dbNoImage.posts.map (fun p => p.image_path) = [none] := by
  refine ⟨rfl, rfl⟩

/-- C4 counterexample: a persistence failure during `get_all_posts`
(which has no `try/except`) propagates to the caller as an exception
instead of being reported as a success-flag result. -/
theorem get_all_posts_uncaught_failure :
    get_all_postsF true emptyDB = Except.error errDb := rfl

/-- C4 amended: the operations whose bodies are wrapped in `try/except`
(`register_user`, `login_user`, `create_post`, `update_post`, `delete_post`,
`add_comment`) catch every persistence failure and report it in their
success-flag result, while the four read operations (`get_all_posts`,
`get_user_posts`, `get_post_details`, `get_post_comments`) have no handler
and let a persistence failure escape to the caller. -/
theorem store_error_policy (hash : String → String) :
    (∀ fault db un em pw fn, exceptOk (register_userF hash fault db un em pw fn) = true) ∧
    (∀ fault db un pw, exceptOk (login_userF hash fault db un pw) = true) ∧
    (∀ fault cf fs db uid t c g ip, exceptOk (create_postF fault cf fs db uid t c g ip) = true) ∧
    (∀ fault db pid t c g, exceptOk (update_postF fault db pid t c g) = true) ∧
    (∀ fault db pid, exceptOk (delete_postF fault db pid) = true) ∧
    (∀ fault db pid uid txt, exceptOk (add_commentF fault db pid uid txt) = true) ∧
    (∀ db, get_all_postsF true db = Except.error errDb) ∧
    (∀ db uid, get_user_postsF true db uid = Except.error errDb) ∧
    (∀ db pid, get_post_detailsF true db pid = Except.error errDb) ∧
    (∀ db pid, get_post_commentsF true db pid = Except.error errDb) := by
  refine ⟨?_, ?_, ?_, ?_, ?_, ?_,
    fun _ => rfl, fun _ _ => rfl, fun _ _ => rfl, fun _ _ => rfl⟩
  · intro fault db un em pw fn
    cases fault
    · by_cases h : db.users.any (fun u => u.username == un || u.email == em) <;>
        simp [register_userF, exceptOk, h]
    · rfl
  · intro fault db un pw
    cases fault
    · simp only [login_userF, Bool.false_eq_true, if_false]
      cases db.users.find? (fun u => u.username == un && u.password == hash pw) <;> rfl
    · rfl
  · intro fault cf fs db uid t c g ip
    cases ip with
    | none => cases fault <;> rfl
    | some p =>
      simp only [create_postF]
      by_cases h : p ≠ emptyStr ∧ p ∈ fs
      · rw [if_pos h]
        cases cf
        · cases fault <;> rfl
        · rfl
      · rw [if_neg h]
        cases fault <;> rfl
  · intro fault db pid t c g
    cases fault <;> rfl
  · intro fault db pid
    cases fault <;> rfl
  · intro fault db pid uid txt
    cases fault <;> rfl

/-- C9: `update_post` changes only the title, content, category and
last-updated timestamp of rows matching the given post id; the matching
row keeps its id, owner, image reference and creation timestamp, every
non-matching row is wholly unchanged, and the users and comments tables are
untouched. -/
theorem update_post_frame (db : DB) (pid : Nat) (t c g : String) :
    ∃ db', update_postF false db pid t c g = Except.ok (db', true, msgUpd) ∧
      db'.users = db.users ∧ db'.comments = db.comments ∧
      List.Forall₂ (fun p q : PostRow =>
        q.post_id = p.post_id ∧ q.user_id = p.user_id ∧
        q.image_path = p.image_path ∧ q.created_at = p.created_at ∧
        (p.post_id ≠ pid → q = p)) db.posts db'.posts := by
  refine ⟨{ db with posts := db.posts.map (updateRow pid t c g db.now) },
    rfl, rfl, rfl, ?_⟩
  rw [List.forall₂_map_right_iff, List.forall₂_same]
  intro p hp
  by_cases h : p.post_id = pid
  · simp [updateRow, h]
  · simp [updateRow, h]

/-- C10: on a post id matching no row, `update_post` and `delete_post` both
report their normal success message and leave the store unchanged. -/
theorem update_delete_missing_id (db : DB) (pid : Nat) (t c g : String)
    (h : ∀ p ∈ db.posts, p.post_id ≠ pid) :
    update_postF false db pid t c g = Except.ok (db, true, msgUpd) ∧
    delete_postF false db pid = Except.ok (db, true, msgDel) := by
  have hm : db.posts.map (updateRow pid t c g db.now) = db.posts := by
    have h2 : db.posts.map (updateRow pid t c g db.now) = db.posts.map id :=
      List.map_congr_left (fun p hp => by simp [updateRow, h p hp])
    simpa using h2
  have hf : db.posts.filter (fun p => !decide (p.post_id = pid)) = db.posts :=
    List.filter_eq_self.mpr (fun p hp => by simpa using h p hp)
  constructor
  · simp [update_postF, hm]
  · simp [delete_postF, hf]

/-- C10 witness: updating or deleting post id 2 in a store whose only post
has id 1 succeeds and changes nothing. -/
theorem update_delete_missing_id_witness :
    (∀ p ∈ dbW.posts, p.post_id ≠ 2) ∧
    (update_postF false dbW 2 ("X") ("Y") ("Z") = Except.ok (dbW, true, msgUpd) ∧
     delete_postF false dbW 2 = Except.ok (dbW, true, msgDel)) :=
  ⟨by decide, update_delete_missing_id dbW 2 ("X") ("Y") ("Z") (by decide)⟩

/-- C2: under the UNIQUE-username invariant, `login_user` succeeds with a
user's `(user_id, full_name)` exactly when a row with that username exists
whose stored hash equals the hash of the supplied password; otherwise it
reports not-found. -/
theorem login_auth_iff (hash : String → String) (db : DB) (un pw : String)
    (huniq : List.Pairwise (fun a b : UserRow => a.username ≠ b.username) db.users) :
    (∀ uid fn,
      login_userF hash false db un pw = Except.ok (LoginOutcome.found uid fn) ↔
        ∃ r ∈ db.users, r.username = un ∧ r.password = hash pw ∧
          r.user_id = uid ∧ r.full_name = fn) ∧
    (login_userF hash false db un pw = Except.ok LoginOutcome.notFound ↔
        ¬ ∃ r ∈ db.users, r.username = un ∧ r.password = hash pw) := by
  have hsym : Symmetric (fun a b : UserRow => a.username ≠ b.username) :=
    fun _ _ h => Ne.symm h
  cases hfind : db.users.find? (fun u => u.username == un && u.password == hash pw) with
  | none =>
    have hnone : ∀ r ∈ db.users, ¬(r.username = un ∧ r.password = hash pw) := by
      intro r hr hcon
      have hb := List.find?_eq_none.mp hfind r hr
      simp [hcon.1, hcon.2] at hb
    constructor
    · intro uid fn
      constructor
      · intro hcontr
        simp [login_userF, hfind] at hcontr
      · rintro ⟨r, hr, h1, h2, -, -⟩
        exact absurd ⟨h1, h2⟩ (hnone r hr)
    · constructor
      · rintro - ⟨r, hr, h1, h2⟩
        exact hnone r hr ⟨h1, h2⟩
      · intro _
        simp [login_userF, hfind]
  | some u0 =>
    have hp0 := List.find?_some hfind
    have hm0 : u0 ∈ db.users := List.mem_of_find?_eq_some hfind
    have hun0 : u0.username = un ∧ u0.password = hash pw := by
      simpa using hp0
    have huniq2 : ∀ r ∈ db.users, r.username = un → r = u0 := by
      intro r hr hru
      by_contra hne
      exact List.Pairwise.forall hsym huniq hr hm0 hne (hru.trans hun0.1.symm)
    constructor
    · intro uid fn
      constructor
      · intro he
        simp only [login_userF, hfind] at he
        have he2 : LoginOutcome.found u0.user_id u0.full_name =
            LoginOutcome.found uid fn := by
          simpa using he
        cases he2
        exact ⟨u0, hm0, hun0.1, hun0.2, rfl, rfl⟩
      · rintro ⟨r, hr, h1, h2, h3, h4⟩
        have hru : r = u0 := huniq2 r hr h1
        subst hru
        simp [login_userF, hfind, ← h3, ← h4]
    · constructor
      · intro he
        simp [login_userF, hfind] at he
      · intro hno
        exact absurd ⟨u0, hm0, hun0.1, hun0.2⟩ hno

/-- C2 witness: with the identity as stand-in hash, logging in as `alice`
with the stored credential succeeds on the one-user store. -/
theorem login_auth_iff_witness :
    List.Pairwise (fun a b : UserRow => a.username ≠ b.username) dbW.users ∧
    ((∀ uid fn,
      login_userF (fun s => s) false dbW ("alice") ("h1") =
          Except.ok (LoginOutcome.found uid fn) ↔
        ∃ r ∈ dbW.users, r.username = "alice" ∧ r.password = "h1" ∧
          r.user_id = uid ∧ r.full_name = fn) ∧
    (login_userF (fun s => s) false dbW ("alice") ("h1") =
        Except.ok LoginOutcome.notFound ↔
      ¬ ∃ r ∈ dbW.users, r.username = "alice" ∧ r.password = "h1")) :=
  ⟨by decide, login_auth_iff (fun s => s) dbW ("alice") ("h1") (by decide)⟩

/-- Helper: when every post's owner exists, the posts-users join keeps
exactly one output row per post, in order. -/
theorem joinRows_map_post_id (users : List UserRow) :
    ∀ posts : List PostRow,
      (∀ p ∈ posts, ∃ u ∈ users, u.user_id = p.user_id) →
      (joinRows users posts).map (fun x => x.post_id) =
        posts.map (fun p => p.post_id)
  | [], _ => rfl
  | p :: ps, h => by
    obtain ⟨u, hu, hid⟩ := h p (List.mem_cons_self p ps)
    have hsome : (users.find? (fun v => v.user_id == p.user_id)).isSome := by
      rw [List.find?_isSome]
      exact ⟨u, hu, by simpa using hid⟩
    obtain ⟨u0, hu0⟩ := Option.isSome_iff_exists.mp hsome
    have ih := joinRows_map_post_id users ps
      (fun q hq => h q (List.mem_cons_of_mem _ hq))
    simp only [joinRows, List.filterMap_cons, hu0, Option.map_some, List.map_cons] at ih ⊢
    exact congrArg (List.cons p.post_id) ih

/-- C3: when every post's owning user exists (the schema invariant),
`get_all_posts` returns one row per post ordered by creation time
descending, and `get_user_posts u` returns exactly the posts owned by `u`,
also newest first. -/
theorem listing_posts_ordered (db : DB) (uid : Nat)
    (hu : ∀ p ∈ db.posts, ∃ u ∈ db.users, u.user_id = p.user_id) :
    ∃ r q,
      get_all_postsF false db = Except.ok r ∧
      List.Perm (r.map (fun x => x.post_id)) (db.posts.map (fun p => p.post_id)) ∧
      List.Sorted (descBy (fun x : AllPostRow => x.created_at)) r ∧
      get_user_postsF false db uid = Except.ok q ∧
      List.Perm q ((db.posts.filter (fun p => p.user_id == uid)).map projUserPost) ∧
      List.Sorted (descBy (fun x : UserPostRow => x.created_at)) q := by
  refine ⟨_, _, rfl, ?_, ?_, rfl, ?_, ?_⟩
  · have hperm :=
      (List.perm_insertionSort (descBy (fun x : AllPostRow => x.created_at))
        (joinRows db.users db.posts)).map (fun x : AllPostRow => x.post_id)
    rw [joinRows_map_post_id db.users db.posts hu] at hperm
    exact hperm
  · exact List.sorted_insertionSort _ _
  · exact List.perm_insertionSort _ _
  · exact List.sorted_insertionSort _ _

/-- C3 witness: on the two-user two-post store every post's owner exists,
and the listings are as stated. -/
theorem listing_posts_ordered_witness :
    (∀ p ∈ dbTwo.posts, ∃ u ∈ dbTwo.users, u.user_id = p.user_id) ∧
    (∃ r q,
      get_all_postsF false dbTwo = Except.ok r ∧
      List.Perm (r.map (fun x => x.post_id)) (dbTwo.posts.map (fun p => p.post_id)) ∧
      List.Sorted (descBy (fun x : AllPostRow => x.created_at)) r ∧
      get_user_postsF false dbTwo 1 = Except.ok q ∧
      List.Perm q ((dbTwo.posts.filter (fun p => p.user_id == 1)).map projUserPost) ∧
      List.Sorted (descBy (fun x : UserPostRow => x.created_at)) q) :=
  ⟨by decide, listing_posts_ordered dbTwo 1 (by decide)⟩

/-- C5 amended: when the supplied image path names an existing file, the
copy happens before the insert — a failing copy aborts the operation with
no post recorded, and a successful copy records the post with the stored
location under `post_images/`; when the supplied path does not name an
existing file, no copy is attempted and the post is recorded with a NULL
image reference and a success result. -/
theorem create_post_image_cases (fs : List String) (db : DB) (uid : Nat)
    (t c g pth : String) (hne : pth ≠ "") :
    (pth ∈ fs →
      create_postF false true fs db uid t c g (some pth) =
        Except.ok (db, CreateOutcome.failed msgCopy) ∧
      create_postF false false fs db uid t c g (some pth) =
        Except.ok (insertPost db uid t c g (some (imgDir ++ basename pth)),
          CreateOutcome.created db.next_post_id)) ∧
    (pth ∉ fs →
      create_postF false false fs db uid t c g (some pth) =
        Except.ok (insertPost db uid t c g none,
          CreateOutcome.created db.next_post_id)) := by
  constructor
  · intro hin
    have hc : pth ≠ emptyStr ∧ pth ∈ fs := ⟨hne, hin⟩
    constructor
    · show (if pth ≠ emptyStr ∧ pth ∈ fs then _ else _) = _
      rw [if_pos hc]
      rfl
    · show (if pth ≠ emptyStr ∧ pth ∈ fs then _ else _) = _
      rw [if_pos hc]
      rfl
  · intro hout
    have hc : ¬(pth ≠ emptyStr ∧ pth ∈ fs) := fun hcon => hout hcon.2
    show (if pth ≠ emptyStr ∧ pth ∈ fs then _ else _) = _
    rw [if_neg hc]
    rfl

/-- C5 amended witness: with `pic.png` present on disk the copy-failure and
copy-success branches behave as stated. -/
theorem create_post_image_cases_witness :
    (("pic.png" : String) ≠ "") ∧
    ((("pic.png" : String) ∈ ["pic.png"] →
      create_postF false true ["pic.png"] emptyDB 1 ("T") ("B") ("Cat") (some ("pic.png")) =
        Except.ok (emptyDB, CreateOutcome.failed msgCopy) ∧
      create_postF false false ["pic.png"] emptyDB 1 ("T") ("B") ("Cat") (some ("pic.png")) =
        Except.ok (insertPost emptyDB 1 ("T") ("B") ("Cat")
            (some (imgDir ++ basename ("pic.png"))),
          CreateOutcome.created emptyDB.next_post_id)) ∧
    (("pic.png" : String) ∉ ["pic.png"] →
      create_postF false false ["pic.png"] emptyDB 1 ("T") ("B") ("Cat") (some ("pic.png")) =
        Except.ok (insertPost emptyDB 1 ("T") ("B") ("Cat") none,
          CreateOutcome.created emptyDB.next_post_id))) :=
  ⟨by decide,
    create_post_image_cases ["pic.png"] emptyDB 1 ("T") ("B") ("Cat") ("pic.png") (by decide)⟩

/-- C6: a registration reusing an existing username or an existing email is
rejected with the duplicate-key message and adds no user row. -/
theorem register_duplicate_fails (hash : String → String) (db : DB)
    (u0 : UserRow) (un em pw fn : String)
    (hmem : u0 ∈ db.users) (hdup : u0.username = un ∨ u0.email = em) :
    register_userF hash false db un em pw fn = Except.ok (db, false, msgDup) := by
  have hany : db.users.any (fun u => u.username == un || u.email == em) = true := by
    rw [List.any_eq_true]
    refine ⟨u0, hmem, ?_⟩
    rcases hdup with h | h <;> simp [h]
  simp [register_userF, hany]

/-- C6 witness: reusing the username `alice` with a fresh email is rejected
and the users table is unchanged. -/
theorem register_duplicate_fails_witness :
    (u1 ∈ dbTwo.users ∧ (u1.username = "alice" ∨ u1.email = "zz@z.com")) ∧
    register_userF (fun s => s) false dbTwo ("alice") ("zz@z.com") ("pw") ("Zoe") =
      Except.ok (dbTwo, false, msgDup) :=
  ⟨⟨by decide, Or.inl (by decide)⟩,
    register_duplicate_fails (fun s => s) dbTwo u1 ("alice") ("zz@z.com") ("pw") ("Zoe")
      (by decide) (Or.inl (by decide))⟩
